import Mathlib

/-!
Shallow embedding of the CF application control core (cf_app.c, cf_timer.h).

External cFE services (software bus, table services, event services,
executive services) are modelled by environments that supply the status
codes and data those services would return; every call this core makes to
an external service is recorded in an event trace, so that claims about
which calls occur, and in which order, are statable.  Machine integers are
modelled as `Int` (int32 status codes) and `Nat` (uint32 table fields,
reduced mod 2^32 where the C type narrows).
-/

namespace CF

/-- cFE status code, an int32.  `CFE_SUCCESS` is 0. -/
def CFE_SUCCESS : Int := 0

/-- Status code returned by a software-bus receive that timed out
(0xCA000001 interpreted as int32). -/
def CFE_SB_TIME_OUT : Int := 0xCA000001 - 0x100000000

/-- Informational status from CFE_TBL_GetAddress meaning the table content
was freshly updated (0x4C000001, positive). -/
def CFE_TBL_INFO_UPDATED : Int := 0x4C000001

/-- Message identifiers.  The numeric values live in platform headers not in
the reviewed source; only their distinctness matters to cf_app.c. -/
def CF_CMD_MID : Nat := 0x18B3

/-- Housekeeping-request message identifier. -/
def CF_SEND_HK_MID : Nat := 0x18B4

/-- Wakeup message identifier. -/
def CF_WAKE_UP_MID : Nat := 0x18B5

/-- Event identifiers used by cf_app.c.  Values live in cf_events.h, not in
the reviewed source; only distinctness matters. -/
def CF_EID_INF_INIT : Nat := 1
def CF_EID_ERR_INIT_TBL_CHECK_REL : Nat := 2
def CF_EID_ERR_INIT_TBL_CHECK_MAN : Nat := 3
def CF_EID_ERR_INIT_TBL_CHECK_GA : Nat := 4
def CF_EID_ERR_INIT_TBL_REG : Nat := 5
def CF_EID_ERR_INIT_TBL_LOAD : Nat := 6
def CF_EID_ERR_INIT_TBL_MANAGE : Nat := 7
def CF_EID_ERR_INIT_TBL_GETADDR : Nat := 8
def CF_EID_ERR_INIT_CMD_LENGTH : Nat := 9
def CF_EID_ERR_INIT_MSG_RECV : Nat := 10
def CF_EID_ERR_INIT_TPS : Nat := 11
def CF_EID_ERR_INIT_CRC_ALIGN : Nat := 12
def CF_EID_ERR_INIT_OUTGOING_SIZE : Nat := 13

/-- Performance marker for the whole app main loop. -/
def CF_PERF_ID_APPMAIN : Nat := 20

/-- Performance marker bracketing one engine cycle. -/
def CF_PERF_ID_CYCLE_ENG : Nat := 21

/-- Application run status (the subset of CFE_ES_RunStatus that cf_app.c
uses, plus APP_EXIT which the type admits). -/
inductive CF_RunStatus where
  | APP_RUN
  | APP_ERROR
  | APP_EXIT
  deriving DecidableEq, Repr

/-- CFE_ES_RunLoop: the host tells the app to keep running only while the
run status it passes in is APP_RUN. -/
def CFE_ES_RunLoop (rs : CF_RunStatus) : Bool :=
  rs == CF_RunStatus.APP_RUN

/-- Configuration table record (cf_config_table_t).  Fields are uint32 in
the C source, modelled as `Nat` reduced mod 2^32 at use sites.  Only the
fields the validator inspects are modelled. -/
structure cf_config_table_t where
  ticks_per_second : Nat
  rx_crc_calc_bytes_per_wakeup : Nat
  outgoing_file_chunk_size : Nat
  deriving DecidableEq, Repr

/-- Modulus of the uint32 fields. -/
def UINT32_MOD : Nat := 2 ^ 32

/-- One observable call this core makes to an external cFE service. -/
inductive Event where
  | msgInit
  | evsRegister
  | sysLog
  | sbCreatePipe
  | sbSubscribe (mid : Nat)
  | tblRegister
  | tblLoad
  | tblManage
  | tblGetAddress
  | tblReleaseAddress
  | evsSendEvent (eid : Nat)
  | engineInit
  | cycleEngine
  | processGroundCommand
  | msgSetTime
  | sbTransmit
  | sbReceive
  | perfLogEntry (id : Nat)
  | perfLogExit (id : Nat)
  | exitApp (rs : CF_RunStatus)
  deriving DecidableEq, Repr

/-- Distinct error codes returned by CF_ValidateConfigTable (the three
static const int32 locals in the C source). -/
def no_ticks_per_second : Int := -1
def crc_alignment : Int := -2
def outgoing_chunk_size : Int := -3

/-- CF_ValidateConfigTable.  `C` stands for sizeof(pdu_fd_data_t), the
fixed payload capacity constant defined in a header outside the reviewed
source; the validator only compares against it.  Field values are reduced
mod 2^32 because the C fields are uint32.  Returns the status and the
trace of events emitted. -/
def CF_ValidateConfigTable (C : Nat) (tbl : cf_config_table_t) :
    Int × List Event :=
  let tps := tbl.ticks_per_second % UINT32_MOD
  let crc := tbl.rx_crc_calc_bytes_per_wakeup % UINT32_MOD
  let ocs := tbl.outgoing_file_chunk_size % UINT32_MOD
  if tps = 0 then
    (no_ticks_per_second, [Event.evsSendEvent CF_EID_ERR_INIT_TPS])
  else if crc = 0 ∨ crc % 1024 ≠ 0 then
    -- in C: !tbl->rx_crc_calc_bytes_per_wakeup ||
    --       (tbl->rx_crc_calc_bytes_per_wakeup & 0x3ff)
    (crc_alignment, [Event.evsSendEvent CF_EID_ERR_INIT_CRC_ALIGN])
  else if ocs > C then
    (outgoing_chunk_size, [Event.evsSendEvent CF_EID_ERR_INIT_OUTGOING_SIZE])
  else
    (CFE_SUCCESS, [])

/-- Housekeeping counters (hk.counters).  The widths live in cf_app.h,
which is not in the reviewed source; modelled from the spec: plain
counters {valid-command count, error count}. -/
structure CF_HkCounters where
  cmd : Nat
  err : Nat
  deriving DecidableEq, Repr

/-- The mutable application state of cf_app.c that the reviewed code
touches (the relevant projection of CF_AppData_t). -/
structure CF_AppData_t where
  run_status : CF_RunStatus
  counters : CF_HkCounters
  engine_enabled : Bool
  config_table : Option cf_config_table_t
  deriving DecidableEq, Repr

/-- Environment supplying the results of the external calls made during
message processing.  The ground-command processor and the engine cycle are
external to this core (cf_cmds.c / cf_cfdp.c are outside the reviewed
source), so they appear as abstract state transformers. -/
structure ProcEnv where
  releaseStatus : Int
  manageStatus : Int
  getAddrStatus : Int
  getAddrTable : Option cf_config_table_t
  groundCmd : CF_AppData_t → CF_AppData_t
  cycleEngine : CF_AppData_t → CF_AppData_t

/-- CF_HkCmd: stamp the housekeeping packet time and transmit it.  Both
calls go to external services; the model state is unchanged. -/
def CF_HkCmd : List Event := [Event.msgSetTime, Event.sbTransmit]

/-- CF_CheckTables: when the engine is disabled, release the table address,
ask table services to apply any pending update, and reacquire the address;
each failing sub-step emits an error event and sets run_status to
APP_ERROR, but the next sub-step still runs.  When the engine is enabled,
nothing happens. -/
def CF_CheckTables (env : ProcEnv) (s : CF_AppData_t) :
    CF_AppData_t × List Event :=
  if s.engine_enabled then (s, [])
  else
    let (s1, t1) :=
      if env.releaseStatus ≠ CFE_SUCCESS then
        ({ s with run_status := CF_RunStatus.APP_ERROR },
         [Event.tblReleaseAddress,
          Event.evsSendEvent CF_EID_ERR_INIT_TBL_CHECK_REL])
      else (s, [Event.tblReleaseAddress])
    let (s2, t2) :=
      if env.manageStatus ≠ CFE_SUCCESS then
        ({ s1 with run_status := CF_RunStatus.APP_ERROR },
         [Event.tblManage, Event.evsSendEvent CF_EID_ERR_INIT_TBL_CHECK_MAN])
      else (s1, [Event.tblManage])
    let (s3, t3) :=
      if env.getAddrStatus ≠ CFE_SUCCESS ∧
         env.getAddrStatus ≠ CFE_TBL_INFO_UPDATED then
        ({ s2 with config_table := env.getAddrTable,
                   run_status := CF_RunStatus.APP_ERROR },
         [Event.tblGetAddress,
          Event.evsSendEvent CF_EID_ERR_INIT_TBL_CHECK_GA])
      else
        ({ s2 with config_table := env.getAddrTable },
         [Event.tblGetAddress])
    (s3, t1 ++ t2 ++ t3)

/-- CF_WakeUp: one engine cycle bracketed by the cycle performance
markers. -/
def CF_WakeUp (env : ProcEnv) (s : CF_AppData_t) :
    CF_AppData_t × List Event :=
  (env.cycleEngine s,
   [Event.perfLogEntry CF_PERF_ID_CYCLE_ENG, Event.cycleEngine,
    Event.perfLogExit CF_PERF_ID_CYCLE_ENG])

/-- An inbound software-bus message, reduced to its message id. -/
structure Msg where
  msg_id : Nat
  deriving DecidableEq, Repr

/-- CF_ProcessMsg: route one message by its id; any unrecognized id bumps
the error counter and emits an error event. -/
def CF_ProcessMsg (env : ProcEnv) (s : CF_AppData_t) (msg : Msg) :
    CF_AppData_t × List Event :=
  if msg.msg_id = CF_CMD_MID then
    (env.groundCmd s, [Event.processGroundCommand])
  else if msg.msg_id = CF_WAKE_UP_MID then
    CF_WakeUp env s
  else if msg.msg_id = CF_SEND_HK_MID then
    let (s2, t2) := CF_CheckTables env s
    (s2, CF_HkCmd ++ t2)
  else
    ({ s with counters := { s.counters with err := s.counters.err + 1 } },
     [Event.evsSendEvent CF_EID_ERR_INIT_CMD_LENGTH])

/-- Environment supplying the results of the external calls made during
application init. -/
structure InitEnv where
  evsRegisterStatus : Int
  createPipeStatus : Int
  subscribeStatus : Nat → Int
  tblRegisterStatus : Int
  tblLoadStatus : Int
  tblManageStatus : Int
  tblGetAddrStatus : Int
  tblGetAddrTable : Option cf_config_table_t
  engineInitStatus : Int
  engineInitEffect : CF_AppData_t → CF_AppData_t
  sendInitEventStatus : Int

/-- Subscribe loop inside CF_Init: subscribe the pipe to each message id in
order, stopping (with a syslog entry) at the first failure. -/
def subscribeAll (env : InitEnv) : List Nat → Int × List Event
  | [] => (CFE_SUCCESS, [])
  | mid :: rest =>
    if env.subscribeStatus mid ≠ CFE_SUCCESS then
      (env.subscribeStatus mid, [Event.sbSubscribe mid, Event.sysLog])
    else
      let (st, tr) := subscribeAll env rest
      (st, Event.sbSubscribe mid :: tr)

/-- CF_TableInit: register the table, load it from file, manage it, and get
the content address; the first failure emits an error event and returns
that status.  Both CFE_TBL_INFO_UPDATED and CFE_SUCCESS from get-address
count as success and are mapped to CFE_SUCCESS. -/
def CF_TableInit (env : InitEnv) (s : CF_AppData_t) :
    Int × CF_AppData_t × List Event :=
  if env.tblRegisterStatus ≠ CFE_SUCCESS then
    (env.tblRegisterStatus, s,
     [Event.tblRegister, Event.evsSendEvent CF_EID_ERR_INIT_TBL_REG])
  else if env.tblLoadStatus ≠ CFE_SUCCESS then
    (env.tblLoadStatus, s,
     [Event.tblRegister, Event.tblLoad,
      Event.evsSendEvent CF_EID_ERR_INIT_TBL_LOAD])
  else if env.tblManageStatus ≠ CFE_SUCCESS then
    (env.tblManageStatus, s,
     [Event.tblRegister, Event.tblLoad, Event.tblManage,
      Event.evsSendEvent CF_EID_ERR_INIT_TBL_MANAGE])
  else if env.tblGetAddrStatus ≠ CFE_TBL_INFO_UPDATED ∧
          env.tblGetAddrStatus ≠ CFE_SUCCESS then
    (env.tblGetAddrStatus, { s with config_table := env.tblGetAddrTable },
     [Event.tblRegister, Event.tblLoad, Event.tblManage, Event.tblGetAddress,
      Event.evsSendEvent CF_EID_ERR_INIT_TBL_GETADDR])
  else
    (CFE_SUCCESS, { s with config_table := env.tblGetAddrTable },
     [Event.tblRegister, Event.tblLoad, Event.tblManage, Event.tblGetAddress])

/-- CF_Init: set run_status to APP_RUN, init the telemetry message headers,
then in order register the event filters, create the command pipe,
subscribe the three message ids, cold-load the table, init the engine, and
send the startup event.  Every failing step, the event-filter registration
included, logs and jumps to err_out, returning that status. -/
def CF_Init (env : InitEnv) (s : CF_AppData_t) :
    Int × CF_AppData_t × List Event :=
  let s := { s with run_status := CF_RunStatus.APP_RUN }
  let tr0 : List Event := [Event.msgInit, Event.msgInit]
  if env.evsRegisterStatus ≠ CFE_SUCCESS then
    (env.evsRegisterStatus, s, tr0 ++ [Event.evsRegister, Event.sysLog])
  else if env.createPipeStatus ≠ CFE_SUCCESS then
    (env.createPipeStatus, s,
     tr0 ++ [Event.evsRegister, Event.sbCreatePipe, Event.sysLog])
  else
    let (stSub, trSub) :=
      subscribeAll env [CF_CMD_MID, CF_SEND_HK_MID, CF_WAKE_UP_MID]
    let tr1 := tr0 ++ [Event.evsRegister, Event.sbCreatePipe] ++ trSub
    if stSub ≠ CFE_SUCCESS then
      (stSub, s, tr1)
    else
      let (stTbl, s2, trTbl) := CF_TableInit env s
      if stTbl ≠ CFE_SUCCESS then
        (stTbl, s2, tr1 ++ trTbl)
      else if env.engineInitStatus ≠ CFE_SUCCESS then
        (env.engineInitStatus, env.engineInitEffect s2,
         tr1 ++ trTbl ++ [Event.engineInit])
      else
        let s3 := env.engineInitEffect s2
        let tr2 := tr1 ++ trTbl ++
          [Event.engineInit, Event.evsSendEvent CF_EID_INF_INIT]
        if env.sendInitEventStatus ≠ CFE_SUCCESS then
          (env.sendInitEventStatus, s3, tr2 ++ [Event.sysLog])
        else
          (CFE_SUCCESS, s3, tr2)

/-- Result of one CFE_SB_ReceiveBuffer call.  On success the buffer pointer
may still be NULL (modelled as `none`); on timeout or error cFE nulls the
buffer pointer. -/
inductive RecvResult where
  | success (msg : Option Msg)
  | timeout
  | error (code : Int)
  deriving Repr

/-- Status code a receive result carries. -/
def RecvResult.status : RecvResult → Int
  | RecvResult.success _ => CFE_SUCCESS
  | RecvResult.timeout => CFE_SB_TIME_OUT
  | RecvResult.error c => c

/-- Buffer a receive result yields. -/
def RecvResult.msg : RecvResult → Option Msg
  | RecvResult.success m => m
  | RecvResult.timeout => none
  | RecvResult.error _ => none

/-- One iteration of the CF_AppMain while-loop body: exit the appmain perf
marker, receive, re-enter the marker, then either flag a fatal receive
(non-timeout error, or success with a NULL buffer), process the message,
or do nothing (timeout). -/
def loopBody (env : ProcEnv) (r : RecvResult) (s : CF_AppData_t) :
    CF_AppData_t × List Event :=
  let pre : List Event :=
    [Event.perfLogExit CF_PERF_ID_APPMAIN, Event.sbReceive,
     Event.perfLogEntry CF_PERF_ID_APPMAIN]
  if (r.status ≠ CFE_SUCCESS ∧ r.status ≠ CFE_SB_TIME_OUT) ∨
     (r.status = CFE_SUCCESS ∧ r.msg = none) then
    ({ s with run_status := CF_RunStatus.APP_ERROR },
     pre ++ [Event.evsSendEvent CF_EID_ERR_INIT_MSG_RECV])
  else
    match r.msg with
    | some m =>
      let (s2, t2) := CF_ProcessMsg env s m
      (s2, pre ++ t2)
    | none => (s, pre)

/-- The CF_AppMain while-loop, driven by the finite stream of receive
results the software bus will deliver; stops when the host run-loop check
says stop (or the stream is exhausted). -/
def CF_RunLoop (env : ProcEnv) (recvs : List RecvResult)
    (s : CF_AppData_t) : CF_AppData_t × List Event :=
  match recvs with
  | [] => (s, [])
  | r :: rest =>
    if CFE_ES_RunLoop s.run_status then
      let (s1, t1) := loopBody env r s
      let (s2, t2) := CF_RunLoop env rest s1
      (s2, t1 ++ t2)
    else (s, [])

/-- CF_AppMain: init, escalate an init failure to APP_ERROR, run the loop,
and perform the controlled exit with the final run status. -/
def CF_AppMain (env : InitEnv) (penv : ProcEnv) (recvs : List RecvResult)
    (s : CF_AppData_t) : CF_AppData_t × List Event :=
  let (status, s1, tr1) := CF_Init env s
  let s2 :=
    if status ≠ CFE_SUCCESS then { s1 with run_status := CF_RunStatus.APP_ERROR }
    else s1
  let (s3, tr3) := CF_RunLoop penv recvs s2
  (s3, [Event.perfLogEntry CF_PERF_ID_APPMAIN] ++ tr1 ++ tr3 ++
       [Event.perfLogExit CF_PERF_ID_APPMAIN, Event.exitApp s3.run_status])

/-- Modelled from the spec: the timer implementation (cf_timer.c) is not in
the reviewed source, only its header cf_timer.h.  A timer is a single tick
counter, expired when it reaches 0. -/
structure cf_timer_t where
  tick : Nat
  deriving DecidableEq, Repr

/-- Modelled from the spec: target tick count = seconds times rate; a zero
target yields an immediately expired timer. -/
def CF_Timer_InitRelSec (rel_sec rate : Nat) : cf_timer_t :=
  ⟨rel_sec * rate⟩

/-- Modelled from the spec: expired iff the tick counter is 0. -/
def CF_Timer_Expired (t : cf_timer_t) : Bool :=
  t.tick == 0

/-- Modelled from the spec: advance decrements the tick by one, floored at
0 (truncated subtraction on Nat). -/
def CF_Timer_Tick (t : cf_timer_t) : cf_timer_t :=
  ⟨t.tick - 1⟩

/-- Repeated advancement, n times. -/
def CF_Timer_TickN (n : Nat) (t : cf_timer_t) : cf_timer_t :=
  match n with
  | 0 => t
  | n + 1 => CF_Timer_TickN n (CF_Timer_Tick t)

/-- Recognizer for the three table-handle calls of the warm check. -/
def isTblCall : Event → Bool
  | Event.tblReleaseAddress => true
  | Event.tblManage => true
  | Event.tblGetAddress => true
  | _ => false

/-- Concrete initial application state, for concrete runs. -/
def s0 : CF_AppData_t :=
  ⟨CF_RunStatus.APP_RUN, ⟨0, 0⟩, false, none⟩

/-- Concrete initial state with the engine enabled. -/
def s0on : CF_AppData_t :=
  ⟨CF_RunStatus.APP_RUN, ⟨0, 0⟩, true, none⟩

/-- A concrete valid configuration record. -/
def tbl0 : cf_config_table_t := ⟨1, 1024, 8⟩

/-- A processing environment where every external call succeeds. -/
def penv0 : ProcEnv :=
  ⟨CFE_SUCCESS, CFE_SUCCESS, CFE_SUCCESS, some tbl0, id, id⟩

/-- A processing environment where the release-address call fails. -/
def penvRelFail : ProcEnv :=
  ⟨-1, CFE_SUCCESS, CFE_SUCCESS, some tbl0, id, id⟩

/-- An init environment where every external call succeeds. -/
def okInitEnv : InitEnv :=
  ⟨CFE_SUCCESS, CFE_SUCCESS, fun _ => CFE_SUCCESS, CFE_SUCCESS, CFE_SUCCESS,
   CFE_SUCCESS, CFE_TBL_INFO_UPDATED, some tbl0, CFE_SUCCESS, id, CFE_SUCCESS⟩

/-- Init environment where event-filter registration fails. -/
def evsFailInitEnv : InitEnv := { okInitEnv with evsRegisterStatus := -1 }

/-- Init environment where pipe creation fails. -/
def pipeFailInitEnv : InitEnv := { okInitEnv with createPipeStatus := -1 }

/-! Helper lemmas shared between the claim theorems. -/

/-- The warm check's trace, restricted to the three table-handle calls, is
empty when the engine is enabled and exactly release, manage, get-address
in order when it is disabled, whatever the sub-step statuses are. -/
theorem CF_CheckTables_tbl_calls (env : ProcEnv) (s : CF_AppData_t) :
    ((CF_CheckTables env s).2).filter isTblCall
      = if s.engine_enabled then []
        else [Event.tblReleaseAddress, Event.tblManage, Event.tblGetAddress] := by
  unfold CF_CheckTables
  by_cases he : s.engine_enabled = true
  · simp [he]
  · rw [Bool.not_eq_true] at he
    by_cases h1 : env.releaseStatus = CFE_SUCCESS <;>
    by_cases h2 : env.manageStatus = CFE_SUCCESS <;>
    by_cases h3 : env.getAddrStatus ≠ CFE_SUCCESS ∧
                  env.getAddrStatus ≠ CFE_TBL_INFO_UPDATED <;>
    simp [he, h1, h2, h3, isTblCall]

/-- The run loop does nothing when the run status is not APP_RUN. -/
theorem CF_RunLoop_not_running (env : ProcEnv) (recvs : List RecvResult)
    (s : CF_AppData_t) (h : s.run_status ≠ CF_RunStatus.APP_RUN) :
    CF_RunLoop env recvs s = (s, []) := by
  cases recvs with
  | nil => rfl
  | cons r rest => simp [CF_RunLoop, CFE_ES_RunLoop, h]

/-- When init fails, AppMain escalates to APP_ERROR and the run loop
contributes nothing to the trace. -/
theorem CF_AppMain_init_fail (env : InitEnv) (penv : ProcEnv)
    (recvs : List RecvResult) (s s1 : CF_AppData_t) (st : Int)
    (tr : List Event) (hinit : CF_Init env s = (st, s1, tr))
    (hst : st ≠ CFE_SUCCESS) :
    CF_AppMain env penv recvs s
      = ({ s1 with run_status := CF_RunStatus.APP_ERROR },
         [Event.perfLogEntry CF_PERF_ID_APPMAIN] ++ tr ++
         [Event.perfLogExit CF_PERF_ID_APPMAIN,
          Event.exitApp CF_RunStatus.APP_ERROR]) := by
  unfold CF_AppMain
  rw [hinit]
  simp only [hst, if_pos, ne_eq, not_false_iff]
  rw [CF_RunLoop_not_running penv recvs _ (by simp)]
  simp

/-! Claim theorems. -/

/-- C1: the warm configuration check invoked on a HousekeepingRequest
performs zero calls to release-address, manage, and get-address when the
protocol engine is enabled; when the engine is disabled it performs all
three calls, in the order release-address, manage, get-address, on the
configuration table handle. -/
theorem hk_request_tbl_calls (env : ProcEnv) (s : CF_AppData_t) :
    ((CF_ProcessMsg env s ⟨CF_SEND_HK_MID⟩).2).filter isTblCall
      = if s.engine_enabled then []
        else [Event.tblReleaseAddress, Event.tblManage,
              Event.tblGetAddress] := by
  have h := CF_CheckTables_tbl_calls env s
  simp only [CF_ProcessMsg, CF_SEND_HK_MID, CF_CMD_MID, CF_WAKE_UP_MID,
    CF_HkCmd]
  norm_num
  simpa [isTblCall] using h

/-- C10: the warm configuration check never short-circuits: with the
engine disabled, all three sub-steps (release-address, manage,
get-address) run unconditionally in that order, even when the first
sub-step has already failed and set the run status to ERROR. -/
theorem checktables_no_short_circuit (env : ProcEnv) (s : CF_AppData_t)
    (hd : s.engine_enabled = false) (hf : env.releaseStatus ≠ CFE_SUCCESS) :
    ((CF_CheckTables env s).2).filter isTblCall
        = [Event.tblReleaseAddress, Event.tblManage, Event.tblGetAddress]
    ∧ (CF_CheckTables env s).1.run_status = CF_RunStatus.APP_ERROR := by
  constructor
  · rw [CF_CheckTables_tbl_calls, hd]; simp
  · unfold CF_CheckTables
    by_cases h2 : env.manageStatus = CFE_SUCCESS <;>
    by_cases h3 : env.getAddrStatus ≠ CFE_SUCCESS ∧
                  env.getAddrStatus ≠ CFE_TBL_INFO_UPDATED <;>
    simp [hd, hf, h2, h3]

/-- C10 witness: concrete run with the engine disabled and a failing
release-address call. -/
theorem checktables_no_short_circuit_witness :
    ((CF_CheckTables penvRelFail s0).2).filter isTblCall
        = [Event.tblReleaseAddress, Event.tblManage, Event.tblGetAddress]
    ∧ (CF_CheckTables penvRelFail s0).1.run_status
        = CF_RunStatus.APP_ERROR :=
  checktables_no_short_circuit penvRelFail s0 (by decide) (by decide)

/-- C2: the configuration validator accepts a record exactly when
ticks_per_second is nonzero, rx_crc_calc_bytes_per_wakeup is nonzero and a
multiple of 1024, and outgoing_file_chunk_size does not exceed the fixed
payload capacity C.  The hypotheses restrict the fields to the range of
the uint32 C type. -/
theorem validate_accepts_iff (C : Nat) (tbl : cf_config_table_t)
    (h1 : tbl.ticks_per_second < UINT32_MOD)
    (h2 : tbl.rx_crc_calc_bytes_per_wakeup < UINT32_MOD)
    (h3 : tbl.outgoing_file_chunk_size < UINT32_MOD) :
    (CF_ValidateConfigTable C tbl).1 = CFE_SUCCESS ↔
      (tbl.ticks_per_second ≠ 0 ∧
       tbl.rx_crc_calc_bytes_per_wakeup ≠ 0 ∧
       1024 ∣ tbl.rx_crc_calc_bytes_per_wakeup ∧
       tbl.outgoing_file_chunk_size ≤ C) := by
  have hdvd : 1024 ∣ tbl.rx_crc_calc_bytes_per_wakeup ↔
      tbl.rx_crc_calc_bytes_per_wakeup % 1024 = 0 :=
    Nat.dvd_iff_mod_eq_zero
  unfold CF_ValidateConfigTable
  rw [Nat.mod_eq_of_lt h1, Nat.mod_eq_of_lt h2, Nat.mod_eq_of_lt h3, hdvd]
  dsimp only
  split_ifs with c1 c2 c3
  · simp only [no_ticks_per_second, CFE_SUCCESS]
    constructor
    · intro h; omega
    · intro h; omega
  · simp only [crc_alignment, CFE_SUCCESS]
    constructor
    · intro h; omega
    · intro h; omega
  · simp only [outgoing_chunk_size, CFE_SUCCESS]
    constructor
    · intro h; omega
    · intro h; omega
  · simp only [CFE_SUCCESS, eq_self_iff_true, true_iff]
    exact ⟨c1, by omega, by omega, by omega⟩

/-- C2 witness: the boundary cases the claim lists, at C = 2048:
rx_crc_calc_bytes_per_wakeup 1024 accepted, 0 and 1000 rejected;
outgoing_file_chunk_size C accepted, C+1 rejected. -/
theorem validate_accepts_iff_witness :
    (CF_ValidateConfigTable 2048 ⟨1, 1024, 2048⟩).1 = CFE_SUCCESS
    ∧ (CF_ValidateConfigTable 2048 ⟨1, 0, 8⟩).1 ≠ CFE_SUCCESS
    ∧ (CF_ValidateConfigTable 2048 ⟨1, 1000, 8⟩).1 ≠ CFE_SUCCESS
    ∧ (CF_ValidateConfigTable 2048 ⟨1, 1024, 2049⟩).1 ≠ CFE_SUCCESS := by
  refine ⟨?_, ?_, ?_, ?_⟩
  · exact (validate_accepts_iff 2048 ⟨1, 1024, 2048⟩ (by decide) (by decide)
      (by decide)).mpr (by decide)
  · intro h
    exact absurd ((validate_accepts_iff 2048 ⟨1, 0, 8⟩ (by decide) (by decide)
      (by decide)).mp h) (by decide)
  · intro h
    exact absurd ((validate_accepts_iff 2048 ⟨1, 1000, 8⟩ (by decide)
      (by decide) (by decide)).mp h) (by decide)
  · intro h
    exact absurd ((validate_accepts_iff 2048 ⟨1, 1024, 2049⟩ (by decide)
      (by decide) (by decide)).mp h) (by decide)

/-- C6: a message whose id is none of Command, HousekeepingRequest, WakeUp
makes dispatch increment the error counter by exactly one and emit one
error event, and changes nothing else: the run status is unchanged and
neither the engine cycle nor any table-handle call occurs. -/
theorem unrecognized_msg_effect (env : ProcEnv) (s : CF_AppData_t)
    (mid : Nat) (h1 : mid ≠ CF_CMD_MID) (h2 : mid ≠ CF_SEND_HK_MID)
    (h3 : mid ≠ CF_WAKE_UP_MID) :
    CF_ProcessMsg env s ⟨mid⟩
      = ({ s with counters := { s.counters with err := s.counters.err + 1 } },
         [Event.evsSendEvent CF_EID_ERR_INIT_CMD_LENGTH])
    ∧ (CF_ProcessMsg env s ⟨mid⟩).1.run_status = s.run_status
    ∧ Event.cycleEngine ∉ (CF_ProcessMsg env s ⟨mid⟩).2
    ∧ ((CF_ProcessMsg env s ⟨mid⟩).2).filter isTblCall = [] := by
  have h : CF_ProcessMsg env s ⟨mid⟩
      = ({ s with counters := { s.counters with err := s.counters.err + 1 } },
         [Event.evsSendEvent CF_EID_ERR_INIT_CMD_LENGTH]) := by
    simp [CF_ProcessMsg, h1, h2, h3]
  refine ⟨h, ?_, ?_, ?_⟩ <;> rw [h] <;> simp [isTblCall]

/-- C6 witness: concrete unrecognized message id 999. -/
theorem unrecognized_msg_effect_witness :
    CF_ProcessMsg penv0 s0 ⟨999⟩
      = ({ s0 with counters := { s0.counters with err := s0.counters.err + 1 } },
         [Event.evsSendEvent CF_EID_ERR_INIT_CMD_LENGTH])
    ∧ (CF_ProcessMsg penv0 s0 ⟨999⟩).1.run_status = s0.run_status :=
  ⟨(unrecognized_msg_effect penv0 s0 999 (by decide) (by decide)
      (by decide)).1,
   (unrecognized_msg_effect penv0 s0 999 (by decide) (by decide)
      (by decide)).2.1⟩

/-- C7: dispatching one WakeUp message invokes the engine single-cycle
entry point exactly once, bracketed by exactly one matching
performance-marker enter/exit pair. -/
theorem wakeup_single_cycle (env : ProcEnv) (s : CF_AppData_t) :
    (CF_ProcessMsg env s ⟨CF_WAKE_UP_MID⟩).2
      = [Event.perfLogEntry CF_PERF_ID_CYCLE_ENG, Event.cycleEngine,
         Event.perfLogExit CF_PERF_ID_CYCLE_ENG]
    ∧ ((CF_ProcessMsg env s ⟨CF_WAKE_UP_MID⟩).2).count Event.cycleEngine = 1
    ∧ ((CF_ProcessMsg env s ⟨CF_WAKE_UP_MID⟩).2).count
        (Event.perfLogEntry CF_PERF_ID_CYCLE_ENG) = 1
    ∧ ((CF_ProcessMsg env s ⟨CF_WAKE_UP_MID⟩).2).count
        (Event.perfLogExit CF_PERF_ID_CYCLE_ENG) = 1 := by
  have h : (CF_ProcessMsg env s ⟨CF_WAKE_UP_MID⟩).2
      = [Event.perfLogEntry CF_PERF_ID_CYCLE_ENG, Event.cycleEngine,
         Event.perfLogExit CF_PERF_ID_CYCLE_ENG] := by
    simp [CF_ProcessMsg, CF_WakeUp, CF_WAKE_UP_MID, CF_CMD_MID,
      CF_SEND_HK_MID]
  refine ⟨h, ?_, ?_, ?_⟩ <;> rw [h] <;> decide

/-- C4: in the run loop, a receive timeout leaves the state untouched and
only re-evaluates the loop condition; a receive result that is neither
success nor timeout sets the run status to ERROR (and the loop condition
is then false); a successfully received message is handed to
CF_ProcessMsg. -/
theorem run_loop_receive_policy (env : ProcEnv) (s : CF_AppData_t) :
    loopBody env RecvResult.timeout s
      = (s, [Event.perfLogExit CF_PERF_ID_APPMAIN, Event.sbReceive,
             Event.perfLogEntry CF_PERF_ID_APPMAIN])
    ∧ (∀ c : Int, c ≠ CFE_SUCCESS → c ≠ CFE_SB_TIME_OUT →
        loopBody env (RecvResult.error c) s
          = ({ s with run_status := CF_RunStatus.APP_ERROR },
             [Event.perfLogExit CF_PERF_ID_APPMAIN, Event.sbReceive,
              Event.perfLogEntry CF_PERF_ID_APPMAIN,
              Event.evsSendEvent CF_EID_ERR_INIT_MSG_RECV])
        ∧ CFE_ES_RunLoop CF_RunStatus.APP_ERROR = false)
    ∧ (∀ m : Msg, loopBody env (RecvResult.success (some m)) s
          = ((CF_ProcessMsg env s m).1,
             [Event.perfLogExit CF_PERF_ID_APPMAIN, Event.sbReceive,
              Event.perfLogEntry CF_PERF_ID_APPMAIN]
               ++ (CF_ProcessMsg env s m).2)) := by
  refine ⟨?_, ?_, ?_⟩
  · simp [loopBody, RecvResult.status, RecvResult.msg, CFE_SB_TIME_OUT,
      CFE_SUCCESS]
  · intro c hc ht
    refine ⟨?_, rfl⟩
    simp [loopBody, RecvResult.status, RecvResult.msg, hc, ht]
  · intro m
    simp [loopBody, RecvResult.status, RecvResult.msg]

/-- C4 witness: concrete timeout, fatal receive error -1, and one
delivered WakeUp message. -/
theorem run_loop_receive_policy_witness :
    loopBody penv0 RecvResult.timeout s0
      = (s0, [Event.perfLogExit CF_PERF_ID_APPMAIN, Event.sbReceive,
              Event.perfLogEntry CF_PERF_ID_APPMAIN])
    ∧ loopBody penv0 (RecvResult.error (-1)) s0
        = ({ s0 with run_status := CF_RunStatus.APP_ERROR },
           [Event.perfLogExit CF_PERF_ID_APPMAIN, Event.sbReceive,
            Event.perfLogEntry CF_PERF_ID_APPMAIN,
            Event.evsSendEvent CF_EID_ERR_INIT_MSG_RECV])
    ∧ loopBody penv0 (RecvResult.success (some ⟨CF_WAKE_UP_MID⟩)) s0
        = ((CF_ProcessMsg penv0 s0 ⟨CF_WAKE_UP_MID⟩).1,
           [Event.perfLogExit CF_PERF_ID_APPMAIN, Event.sbReceive,
            Event.perfLogEntry CF_PERF_ID_APPMAIN]
             ++ (CF_ProcessMsg penv0 s0 ⟨CF_WAKE_UP_MID⟩).2) :=
  ⟨(run_loop_receive_policy penv0 s0).1,
   ((run_loop_receive_policy penv0 s0).2.1 (-1) (by decide) (by decide)).1,
   (run_loop_receive_policy penv0 s0).2.2 ⟨CF_WAKE_UP_MID⟩⟩

/-- C9: a receive call returning success with a NULL message buffer is
treated exactly like a fatal receive error: the error event is emitted,
the run status becomes ERROR, and the loop condition is then false. -/
theorem recv_null_buffer_fatal (env : ProcEnv) (s : CF_AppData_t) :
    loopBody env (RecvResult.success none) s
      = ({ s with run_status := CF_RunStatus.APP_ERROR },
         [Event.perfLogExit CF_PERF_ID_APPMAIN, Event.sbReceive,
          Event.perfLogEntry CF_PERF_ID_APPMAIN,
          Event.evsSendEvent CF_EID_ERR_INIT_MSG_RECV])
    ∧ (∀ c : Int, c ≠ CFE_SUCCESS → c ≠ CFE_SB_TIME_OUT →
        loopBody env (RecvResult.success none) s
          = loopBody env (RecvResult.error c) s)
    ∧ CFE_ES_RunLoop CF_RunStatus.APP_ERROR = false := by
  refine ⟨?_, ?_, rfl⟩
  · simp [loopBody, RecvResult.status, RecvResult.msg, CFE_SUCCESS]
  · intro c hc ht
    simp only [loopBody, RecvResult.status, RecvResult.msg, hc, ht,
      CFE_SUCCESS]
    norm_num
    split_ifs with h0
    · rfl
    · tauto

/-- C9 witness: the null-buffer success is handled like the concrete fatal
receive error -1. -/
theorem recv_null_buffer_fatal_witness :
    loopBody penv0 (RecvResult.success none) s0
      = ({ s0 with run_status := CF_RunStatus.APP_ERROR },
         [Event.perfLogExit CF_PERF_ID_APPMAIN, Event.sbReceive,
          Event.perfLogEntry CF_PERF_ID_APPMAIN,
          Event.evsSendEvent CF_EID_ERR_INIT_MSG_RECV])
    ∧ loopBody penv0 (RecvResult.success none) s0
        = loopBody penv0 (RecvResult.error (-1)) s0 :=
  ⟨(recv_null_buffer_fatal penv0 s0).1,
   (recv_null_buffer_fatal penv0 s0).2.1 (-1) (by decide) (by decide)⟩

/-- C8: repeated advancement never drives the tick counter below 0,
advancing an expired timer is a no-op, and expiry is permanent under
further advancement. -/
theorem timer_advance_invariant (t : cf_timer_t) (n : Nat) :
    (CF_Timer_TickN n t).tick = t.tick - n
    ∧ (0 : Int) ≤ ((CF_Timer_TickN n t).tick : Int)
    ∧ (CF_Timer_Expired t = true → CF_Timer_Tick t = t)
    ∧ (CF_Timer_Expired t = true →
        CF_Timer_Expired (CF_Timer_TickN n t) = true) := by
  have key : ∀ n (t : cf_timer_t), (CF_Timer_TickN n t).tick = t.tick - n := by
    intro n
    induction n with
    | zero => intro t; rfl
    | succ k ih =>
      intro t
      show (CF_Timer_TickN k (CF_Timer_Tick t)).tick = t.tick - (k + 1)
      rw [ih (CF_Timer_Tick t)]
      show t.tick - 1 - k = t.tick - (k + 1)
      omega
  refine ⟨key n t, by positivity, ?_, ?_⟩
  · intro h
    cases t with
    | mk tick =>
      simp only [CF_Timer_Expired, beq_iff_eq] at h
      simp [CF_Timer_Tick, h]
  · intro h
    simp only [CF_Timer_Expired, beq_iff_eq] at h ⊢
    rw [key n t, h]
    omega

/-- C8 witness: a timer created from 0 seconds is expired, stays expired
after 3 advancements, and advancing it is a no-op. -/
theorem timer_advance_invariant_witness :
    (CF_Timer_TickN 3 (CF_Timer_InitRelSec 0 100)).tick
        = (CF_Timer_InitRelSec 0 100).tick - 3
    ∧ CF_Timer_Tick (CF_Timer_InitRelSec 0 100) = CF_Timer_InitRelSec 0 100
    ∧ CF_Timer_Expired (CF_Timer_TickN 3 (CF_Timer_InitRelSec 0 100))
        = true :=
  ⟨(timer_advance_invariant (CF_Timer_InitRelSec 0 100) 3).1,
   (timer_advance_invariant (CF_Timer_InitRelSec 0 100) 3).2.2.1 (by decide),
   (timer_advance_invariant (CF_Timer_InitRelSec 0 100) 3).2.2.2 (by decide)⟩

/-- C3 counterexample: with every other call succeeding and event-filter
registration failing with -1, CF_Init returns the failure instead of
continuing: none of the remaining steps (pipe creation, subscription,
table load, engine init) runs.  This refutes the claim that a step 1
failure does not abort. -/
theorem evs_register_fail_aborts_counterexample :
    (CF_Init evsFailInitEnv s0).1 = -1
    ∧ (CF_Init evsFailInitEnv s0).1 ≠ CFE_SUCCESS
    ∧ Event.sbCreatePipe ∉ (CF_Init evsFailInitEnv s0).2.2
    ∧ Event.tblLoad ∉ (CF_Init evsFailInitEnv s0).2.2
    ∧ Event.engineInit ∉ (CF_Init evsFailInitEnv s0).2.2
    ∧ Event.sysLog ∈ (CF_Init evsFailInitEnv s0).2.2 := by decide

/-- C3 (amended): if step 1 of CF_Init (registering the event-filter set)
fails, the failure is logged to the system log and CF_Init aborts exactly
like the later steps: the remaining initialization steps are skipped,
CF_Init returns the failing status, and the run status escalates to ERROR
in CF_AppMain, whose loop then dispatches nothing. -/
theorem evs_register_fail_fatal (env : InitEnv) (s : CF_AppData_t)
    (h : env.evsRegisterStatus ≠ CFE_SUCCESS) :
    CF_Init env s
      = (env.evsRegisterStatus,
         { s with run_status := CF_RunStatus.APP_RUN },
         [Event.msgInit, Event.msgInit, Event.evsRegister, Event.sysLog])
    ∧ (∀ penv recvs, CF_AppMain env penv recvs s
        = ({ s with run_status := CF_RunStatus.APP_ERROR },
           [Event.perfLogEntry CF_PERF_ID_APPMAIN, Event.msgInit,
            Event.msgInit, Event.evsRegister, Event.sysLog,
            Event.perfLogExit CF_PERF_ID_APPMAIN,
            Event.exitApp CF_RunStatus.APP_ERROR])) := by
  have hinit : CF_Init env s
      = (env.evsRegisterStatus,
         { s with run_status := CF_RunStatus.APP_RUN },
         [Event.msgInit, Event.msgInit, Event.evsRegister, Event.sysLog]) := by
    simp [CF_Init, h]
  refine ⟨hinit, fun penv recvs => ?_⟩
  rw [CF_AppMain_init_fail env penv recvs s _ _ _ hinit h]
  rfl

/-- C3 (amended) witness: concrete run with registration failing. -/
theorem evs_register_fail_fatal_witness :
    CF_Init evsFailInitEnv s0
      = (-1, { s0 with run_status := CF_RunStatus.APP_RUN },
         [Event.msgInit, Event.msgInit, Event.evsRegister, Event.sysLog])
    ∧ CF_AppMain evsFailInitEnv penv0 [RecvResult.timeout] s0
        = ({ s0 with run_status := CF_RunStatus.APP_ERROR },
           [Event.perfLogEntry CF_PERF_ID_APPMAIN, Event.msgInit,
            Event.msgInit, Event.evsRegister, Event.sysLog,
            Event.perfLogExit CF_PERF_ID_APPMAIN,
            Event.exitApp CF_RunStatus.APP_ERROR]) :=
  ⟨(evs_register_fail_fatal evsFailInitEnv s0 (by decide)).1,
   (evs_register_fail_fatal evsFailInitEnv s0 (by decide)).2 penv0
     [RecvResult.timeout]⟩

/-- C5: any failure in steps 2 through 5 of CF_Init (pipe creation,
subscription, configuration cold load, engine init, startup event
emission) is fatal: the remaining initialization steps are skipped,
CF_Init returns the failing status, and in CF_AppMain the run status
becomes ERROR so the run loop never dispatches a message (it contributes
nothing to the trace). -/
theorem init_step_failure_fatal (env : InitEnv) (s : CF_AppData_t) :
    (env.evsRegisterStatus = CFE_SUCCESS →
      env.createPipeStatus ≠ CFE_SUCCESS →
      CF_Init env s
        = (env.createPipeStatus,
           { s with run_status := CF_RunStatus.APP_RUN },
           [Event.msgInit, Event.msgInit, Event.evsRegister,
            Event.sbCreatePipe, Event.sysLog]))
    ∧ (env.evsRegisterStatus = CFE_SUCCESS →
        env.createPipeStatus = CFE_SUCCESS →
        env.subscribeStatus CF_CMD_MID ≠ CFE_SUCCESS →
        CF_Init env s
          = (env.subscribeStatus CF_CMD_MID,
             { s with run_status := CF_RunStatus.APP_RUN },
             [Event.msgInit, Event.msgInit, Event.evsRegister,
              Event.sbCreatePipe, Event.sbSubscribe CF_CMD_MID,
              Event.sysLog]))
    ∧ (env.evsRegisterStatus = CFE_SUCCESS →
        env.createPipeStatus = CFE_SUCCESS →
        env.subscribeStatus CF_CMD_MID = CFE_SUCCESS →
        env.subscribeStatus CF_SEND_HK_MID ≠ CFE_SUCCESS →
        CF_Init env s
          = (env.subscribeStatus CF_SEND_HK_MID,
             { s with run_status := CF_RunStatus.APP_RUN },
             [Event.msgInit, Event.msgInit, Event.evsRegister,
              Event.sbCreatePipe, Event.sbSubscribe CF_CMD_MID,
              Event.sbSubscribe CF_SEND_HK_MID, Event.sysLog]))
    ∧ (env.evsRegisterStatus = CFE_SUCCESS →
        env.createPipeStatus = CFE_SUCCESS →
        env.subscribeStatus CF_CMD_MID = CFE_SUCCESS →
        env.subscribeStatus CF_SEND_HK_MID = CFE_SUCCESS →
        env.subscribeStatus CF_WAKE_UP_MID ≠ CFE_SUCCESS →
        CF_Init env s
          = (env.subscribeStatus CF_WAKE_UP_MID,
             { s with run_status := CF_RunStatus.APP_RUN },
             [Event.msgInit, Event.msgInit, Event.evsRegister,
              Event.sbCreatePipe, Event.sbSubscribe CF_CMD_MID,
              Event.sbSubscribe CF_SEND_HK_MID,
              Event.sbSubscribe CF_WAKE_UP_MID, Event.sysLog]))
    ∧ (env.evsRegisterStatus = CFE_SUCCESS →
        env.createPipeStatus = CFE_SUCCESS →
        env.subscribeStatus CF_CMD_MID = CFE_SUCCESS →
        env.subscribeStatus CF_SEND_HK_MID = CFE_SUCCESS →
        env.subscribeStatus CF_WAKE_UP_MID = CFE_SUCCESS →
        (CF_TableInit env { s with run_status := CF_RunStatus.APP_RUN }).1
            ≠ CFE_SUCCESS →
        CF_Init env s
          = ((CF_TableInit env
                { s with run_status := CF_RunStatus.APP_RUN }).1,
             (CF_TableInit env
                { s with run_status := CF_RunStatus.APP_RUN }).2.1,
             [Event.msgInit, Event.msgInit, Event.evsRegister,
              Event.sbCreatePipe, Event.sbSubscribe CF_CMD_MID,
              Event.sbSubscribe CF_SEND_HK_MID,
              Event.sbSubscribe CF_WAKE_UP_MID]
               ++ (CF_TableInit env
                     { s with run_status := CF_RunStatus.APP_RUN }).2.2))
    ∧ (env.evsRegisterStatus = CFE_SUCCESS →
        env.createPipeStatus = CFE_SUCCESS →
        env.subscribeStatus CF_CMD_MID = CFE_SUCCESS →
        env.subscribeStatus CF_SEND_HK_MID = CFE_SUCCESS →
        env.subscribeStatus CF_WAKE_UP_MID = CFE_SUCCESS →
        (CF_TableInit env { s with run_status := CF_RunStatus.APP_RUN }).1
            = CFE_SUCCESS →
        env.engineInitStatus ≠ CFE_SUCCESS →
        CF_Init env s
          = (env.engineInitStatus,
             env.engineInitEffect
               (CF_TableInit env
                  { s with run_status := CF_RunStatus.APP_RUN }).2.1,
             [Event.msgInit, Event.msgInit, Event.evsRegister,
              Event.sbCreatePipe, Event.sbSubscribe CF_CMD_MID,
              Event.sbSubscribe CF_SEND_HK_MID,
              Event.sbSubscribe CF_WAKE_UP_MID]
               ++ (CF_TableInit env
                     { s with run_status := CF_RunStatus.APP_RUN }).2.2
               ++ [Event.engineInit]))
    ∧ (env.evsRegisterStatus = CFE_SUCCESS →
        env.createPipeStatus = CFE_SUCCESS →
        env.subscribeStatus CF_CMD_MID = CFE_SUCCESS →
        env.subscribeStatus CF_SEND_HK_MID = CFE_SUCCESS →
        env.subscribeStatus CF_WAKE_UP_MID = CFE_SUCCESS →
        (CF_TableInit env { s with run_status := CF_RunStatus.APP_RUN }).1
            = CFE_SUCCESS →
        env.engineInitStatus = CFE_SUCCESS →
        env.sendInitEventStatus ≠ CFE_SUCCESS →
        CF_Init env s
          = (env.sendInitEventStatus,
             env.engineInitEffect
               (CF_TableInit env
                  { s with run_status := CF_RunStatus.APP_RUN }).2.1,
             [Event.msgInit, Event.msgInit, Event.evsRegister,
              Event.sbCreatePipe, Event.sbSubscribe CF_CMD_MID,
              Event.sbSubscribe CF_SEND_HK_MID,
              Event.sbSubscribe CF_WAKE_UP_MID]
               ++ (CF_TableInit env
                     { s with run_status := CF_RunStatus.APP_RUN }).2.2
               ++ [Event.engineInit, Event.evsSendEvent CF_EID_INF_INIT,
                   Event.sysLog]))
    ∧ (∀ penv recvs, (CF_Init env s).1 ≠ CFE_SUCCESS →
        CF_AppMain env penv recvs s
          = ({ (CF_Init env s).2.1 with
                 run_status := CF_RunStatus.APP_ERROR },
             [Event.perfLogEntry CF_PERF_ID_APPMAIN]
               ++ (CF_Init env s).2.2
               ++ [Event.perfLogExit CF_PERF_ID_APPMAIN,
                   Event.exitApp CF_RunStatus.APP_ERROR])) := by
  refine ⟨?_, ?_, ?_, ?_, ?_, ?_, ?_, ?_⟩
  · intro hE hPf
    simp [CF_Init, hE, hPf]
  · intro hE hP h1f
    simp [CF_Init, subscribeAll, hE, hP, h1f]
  · intro hE hP h1 h2f
    simp [CF_Init, subscribeAll, hE, hP, h1, h2f]
  · intro hE hP h1 h2 h3f
    simp [CF_Init, subscribeAll, hE, hP, h1, h2, h3f]
  · intro hE hP h1 h2 h3 htf
    rcases hEq : CF_TableInit env { s with run_status := CF_RunStatus.APP_RUN }
      with ⟨stTbl, s2, trTbl⟩
    rw [hEq] at htf
    simp only at htf
    simp [CF_Init, subscribeAll, hE, hP, h1, h2, h3, hEq, htf]
  · intro hE hP h1 h2 h3 ht hEngf
    rcases hEq : CF_TableInit env { s with run_status := CF_RunStatus.APP_RUN }
      with ⟨stTbl, s2, trTbl⟩
    rw [hEq] at ht
    simp only at ht
    simp [CF_Init, subscribeAll, hE, hP, h1, h2, h3, hEq, ht, hEngf]
  · intro hE hP h1 h2 h3 ht hEng hEvtf
    rcases hEq : CF_TableInit env { s with run_status := CF_RunStatus.APP_RUN }
      with ⟨stTbl, s2, trTbl⟩
    rw [hEq] at ht
    simp only at ht
    simp [CF_Init, subscribeAll, hE, hP, h1, h2, h3, hEq, ht, hEng, hEvtf]
  · intro penv recvs hst
    exact CF_AppMain_init_fail env penv recvs s _ _ _ rfl hst

/-- C5 witness: concrete run in which pipe creation fails with -1: CF_Init
stops there and returns -1, and CF_AppMain with one pending receive result
dispatches nothing. -/
theorem init_step_failure_fatal_witness :
    CF_Init pipeFailInitEnv s0
      = (-1, { s0 with run_status := CF_RunStatus.APP_RUN },
         [Event.msgInit, Event.msgInit, Event.evsRegister,
          Event.sbCreatePipe, Event.sysLog])
    ∧ CF_AppMain pipeFailInitEnv penv0
        [RecvResult.success (some ⟨CF_WAKE_UP_MID⟩)] s0
        = ({ (CF_Init pipeFailInitEnv s0).2.1 with
               run_status := CF_RunStatus.APP_ERROR },
           [Event.perfLogEntry CF_PERF_ID_APPMAIN]
             ++ (CF_Init pipeFailInitEnv s0).2.2
             ++ [Event.perfLogExit CF_PERF_ID_APPMAIN,
                 Event.exitApp CF_RunStatus.APP_ERROR]) :=
  ⟨(init_step_failure_fatal pipeFailInitEnv s0).1 (by decide) (by decide),
   (init_step_failure_fatal pipeFailInitEnv s0).2.2.2.2.2.2.2
     penv0 [RecvResult.success (some ⟨CF_WAKE_UP_MID⟩)] (by decide)⟩

end CF
